import Mathlib

/-!
Verification of the Notion MCP server's transformation engine (`server.js`):
the property-value normalizer (`extractAllProperties`), the block renderer and
pagination loop (`getPageContent`), and the two tool handlers
(`search_notion`, `get_notion_page`).

Modelling conventions (JavaScript semantics made explicit):
* `JAtom` is the domain of primitive JavaScript values flowing through the
  normalizer: `undef` is `undefined` (an absent object field reads as
  `undefined`), `null` is `null`, and the remaining constructors carry
  booleans, numbers and strings.  Numbers are carried as `Int`: the code never
  computes with them, it only passes them through.
* An object field that may be absent is modelled as an `Option`; `none` means
  the field is missing (reads as `undefined`).
* A JavaScript field access on `undefined` throws a `TypeError`; a function
  whose body can throw is modelled with `Option` (`none` = the call threw).
* `Except String` models a rejected promise carrying an error message.
* The unbounded `do/while` pagination loop is modelled with explicit fuel;
  `none` from the fuel running out models non-termination.
-/

namespace NotionMCP

/-- A primitive JavaScript value as passed through by the normalizer.
`undef` models `undefined` (in particular the result of reading an absent
field), `null` models `null`. -/
inductive JAtom where
  | undef
  | null
  | bool (b : Bool)
  | num (n : Int)
  | str (s : String)
deriving DecidableEq, Repr

/-- One rich-text run; the code reads its `plain_text` field
(`FIELD_NAMES.PLAIN_TEXT`). -/
structure TextRun where
  plain_text : String
deriving DecidableEq, Repr

/-- A select / multi-select option record; the code reads its `name` field,
which may be absent. -/
structure SelectOption where
  name : Option String := none
deriving DecidableEq, Repr

/-- A person record of a `people` property; the code reads `name` with an
`id` fallback (`p.name || p.id`). -/
structure Person where
  name : Option String := none
  id : Option String := none
deriving DecidableEq, Repr

/-- The payload of a `date` property; the code reads its `start` field. -/
structure DatePayload where
  start : Option String := none
deriving DecidableEq, Repr

/-- One entry of a `relation` property; the code reads its `id` field. -/
structure RelationRef where
  id : Option String := none
deriving DecidableEq, Repr

/-- A tagged Notion property value as consumed by `extractAllProperties`.
The JavaScript object stores the kind-specific payload under the field named
by `type`; here every kind-specific field is present as an `Option` (or as a
`JAtom`, with `JAtom.undef` for an absent field, for the five kinds whose
sub-field the code passes through unchanged).  Only the field matching `type`
is ever read by the code. -/
structure PropertyValue where
  type : String
  title : Option (List TextRun) := none
  rich_text : Option (List TextRun) := none
  number : JAtom := JAtom.undef
  select : Option SelectOption := none
  multi_select : Option (List SelectOption) := none
  date : Option DatePayload := none
  checkbox : JAtom := JAtom.undef
  url : JAtom := JAtom.undef
  email : JAtom := JAtom.undef
  phone_number : JAtom := JAtom.undef
  people : Option (List Person) := none
  relation : Option (List RelationRef) := none
deriving DecidableEq, Repr

/-- A normalized property value: a primitive, a list of primitives
(multi-select names, people names/ids, relation ids — an element can be
`undef` when the record lacks the read field), or the raw `PropertyValue`
passed through for an unrecognized kind. -/
inductive NormValue where
  | atom (a : JAtom)
  | list (l : List JAtom)
  | raw (v : PropertyValue)
deriving DecidableEq, Repr

/-- `runs.map(t => t.plain_text).join('')`: concatenation of the runs'
plain-text fields, no separator. -/
def joinedText (runs : List TextRun) : String :=
  String.join (runs.map (fun t => t.plain_text))

/-- `value[value.type]?.map(t => t.plain_text).join('') || ''` for
title / rich_text: absent run list degrades to the empty string (and the
`|| ''` collapses a falsy joined string to `''`, which is the identity on
strings). -/
def textValue : Option (List TextRun) → String
  | some runs => joinedText runs
  | none => ""

/-- An optional string field read as a JavaScript value: absent is
`undefined`. -/
def optStr : Option String → JAtom
  | some s => JAtom.str s
  | none => JAtom.undef

/-- `value.select?.name || null`: the option name, with `null` when the
select payload or its name is absent, or the name is falsy (empty). -/
def selectValue : Option SelectOption → JAtom
  | some o =>
    match o.name with
    | some n => if n = "" then JAtom.null else JAtom.str n
    | none => JAtom.null
  | none => JAtom.null

/-- `value.multi_select?.map(s => s.name) || []`. -/
def multiSelectValue : Option (List SelectOption) → List JAtom
  | some opts => opts.map (fun o => optStr o.name)
  | none => []

/-- `value.date?.start || null`: the start string, with `null` when the date
payload or its start is absent or the start string is falsy (empty). -/
def dateValue : Option DatePayload → JAtom
  | some d =>
    match d.start with
    | some s => if s = "" then JAtom.null else JAtom.str s
    | none => JAtom.null
  | none => JAtom.null

/-- `p.name || p.id`: the person name, falling back to the id when the name
is absent or falsy (empty). -/
def personAtom (p : Person) : JAtom :=
  match p.name with
  | some n => if n = "" then optStr p.id else JAtom.str n
  | none => optStr p.id

/-- `value.people?.map(p => p.name || p.id) || []`. -/
def peopleValue : Option (List Person) → List JAtom
  | some ps => ps.map personAtom
  | none => []

/-- `value.relation?.map(r => r.id) || []`. -/
def relationValue : Option (List RelationRef) → List JAtom
  | some rs => rs.map (fun r => optStr r.id)
  | none => []

/-- The per-value body of `extractAllProperties`: the chained conditional
dispatch on `value.type` over `PROPERTY_TYPES`, with the raw pass-through
default arm. -/
def normalizeValue (value : PropertyValue) : NormValue :=
  if value.type = "title" then NormValue.atom (JAtom.str (textValue value.title))
  else if value.type = "rich_text" then NormValue.atom (JAtom.str (textValue value.rich_text))
  else if value.type = "number" then NormValue.atom value.number
  else if value.type = "select" then NormValue.atom (selectValue value.select)
  else if value.type = "multi_select" then NormValue.list (multiSelectValue value.multi_select)
  else if value.type = "date" then NormValue.atom (dateValue value.date)
  else if value.type = "checkbox" then NormValue.atom value.checkbox
  else if value.type = "url" then NormValue.atom value.url
  else if value.type = "email" then NormValue.atom value.email
  else if value.type = "phone_number" then NormValue.atom value.phone_number
  else if value.type = "people" then NormValue.list (peopleValue value.people)
  else if value.type = "relation" then NormValue.list (relationValue value.relation)
  else NormValue.raw value

/-- The enumerated property kinds of `PROPERTY_TYPES`, in dispatch order. -/
def supportedPropertyTypes : List String :=
  ["title", "rich_text", "number", "select", "multi_select", "date",
   "checkbox", "url", "email", "phone_number", "people", "relation"]

/-- The `for (const [key, value] of Object.entries(...))` loop of
`extractAllProperties`: a property map is an ordered association list, and
every key is written back with its normalized value. -/
def normalizeProps (props : List (String × PropertyValue)) : List (String × NormValue) :=
  props.map (fun kv => (kv.1, normalizeValue kv.2))

/-- A Notion page as read by the server: metadata fields (absent = `none`)
and the property map (`page.properties || {}` degrades an absent map to the
empty one). -/
structure Page where
  id : Option String := none
  url : Option String := none
  created_time : Option String := none
  last_edited_time : Option String := none
  properties : Option (List (String × PropertyValue)) := none
deriving DecidableEq, Repr

/-- `extractAllProperties(page)`: iterate `page.properties || {}`. -/
def extractAllProperties (page : Page) : List (String × NormValue) :=
  normalizeProps (page.properties.getD [])

/-- The kind-specific payload object a block stores under the field named by
its `type` (`block[block.type]`); only that one field is ever read, so one
optional payload slot models the JavaScript object.  `rich_text` may itself
be absent; `checked` and `language` are read only for `to_do` / `code`. -/
structure BlockPayload where
  rich_text : Option (List TextRun) := none
  checked : Option Bool := none
  language : Option String := none
deriving DecidableEq, Repr

/-- A block as returned by the block-children listing: its kind tag and the
payload stored under the kind-named field (`none` = that field is absent). -/
structure Block where
  type : String
  payload : Option BlockPayload := none
deriving DecidableEq, Repr

/-- The enumerated block kinds of `BLOCK_TYPES`, in dispatch order. -/
def blockKinds : List String :=
  ["paragraph", "heading_1", "heading_2", "heading_3", "bulleted_list_item",
   "numbered_list_item", "to_do", "toggle", "code", "quote", "divider"]

/-- The block kinds whose arm dereferences `block[type].rich_text`
(every enumerated kind except `divider`). -/
def textualBlockKinds : List String :=
  ["paragraph", "heading_1", "heading_2", "heading_3", "bulleted_list_item",
   "numbered_list_item", "to_do", "toggle", "code", "quote"]

/-- The per-block arrow function of `blocks.map(...)` in `getPageContent`.
`none` models a thrown `TypeError`: the code dereferences
`block[type].rich_text.map` with no optional chaining, so an absent payload
object or an absent run list throws.  `to_do` tests `checked` for truthiness
(`undefined` is falsy); `code` interpolates `language` into a template
literal, where `undefined` prints as `"undefined"`. -/
def render (block : Block) : Option String :=
  if block.type = "paragraph" then
    block.payload.bind (fun p => p.rich_text.map (fun runs => joinedText runs))
  else if block.type = "heading_1" then
    block.payload.bind (fun p => p.rich_text.map (fun runs => "# " ++ joinedText runs))
  else if block.type = "heading_2" then
    block.payload.bind (fun p => p.rich_text.map (fun runs => "## " ++ joinedText runs))
  else if block.type = "heading_3" then
    block.payload.bind (fun p => p.rich_text.map (fun runs => "### " ++ joinedText runs))
  else if block.type = "bulleted_list_item" then
    block.payload.bind (fun p => p.rich_text.map (fun runs => "• " ++ joinedText runs))
  else if block.type = "numbered_list_item" then
    block.payload.bind (fun p => p.rich_text.map (fun runs => "1. " ++ joinedText runs))
  else if block.type = "to_do" then
    block.payload.bind (fun p => p.rich_text.map (fun runs =>
      (match p.checked with
       | some true => "✓"
       | _ => "○") ++ " " ++ joinedText runs))
  else if block.type = "toggle" then
    block.payload.bind (fun p => p.rich_text.map (fun runs => "▸ " ++ joinedText runs))
  else if block.type = "code" then
    block.payload.bind (fun p => p.rich_text.map (fun runs =>
      "```" ++
      (match p.language with
       | some l => l
       | none => "undefined") ++ "\n" ++ joinedText runs ++ "\n```"))
  else if block.type = "quote" then
    block.payload.bind (fun p => p.rich_text.map (fun runs => "> " ++ joinedText runs))
  else if block.type = "divider" then
    some "---"
  else
    some ("[" ++ block.type ++ "]")

/-- `blocks.map(render)` with JavaScript exception semantics: the map is
evaluated left to right and the whole call throws (`none`) as soon as one
block's arm throws. -/
def renderBlocks : List Block → Option (List String)
  | [] => some []
  | b :: bs =>
    match render b, renderBlocks bs with
    | some s, some rest => some (s :: rest)
    | _, _ => none

/-- `.filter(text => text.length > 0)`: drop the zero-length lines. -/
def filterNonEmpty (lines : List String) : List String :=
  lines.filter (fun t => decide (0 < t.length))

/-- `content.join('\n\n')` after rendering and filtering: the page's
linearized text. -/
def contentOfBlocks (blocks : List Block) : Option String :=
  (renderBlocks blocks).map (fun lines =>
    String.intercalate "\n\n" (filterNonEmpty lines))

/-- One response of the block-children listing call:
`{results, next_cursor}`. -/
structure ListResponse where
  results : List Block := []
  next_cursor : Option String := none
deriving DecidableEq, Repr

/-- JavaScript truthiness of the cursor in `while (cursor)`: `null` /
`undefined` (here `none`) and the empty string are falsy. -/
def cursorTruthy : Option String → Bool
  | some s => !(s == "")
  | none => false

/-- The `do { ... } while (cursor)` pagination loop of `getPageContent`,
with explicit fuel for the unbounded iteration.  Each round calls the
listing API with the current cursor (`none` on the first call), appends
`response.results`, and adopts `response.next_cursor`.  Returns the
accumulated blocks together with the number of listing calls made;
`none` = the fuel ran out (models a never-falsy cursor stream),
`some (.error m)` = a listing call failed. -/
def listLoop (api : Option String → Except String ListResponse) :
    Nat → Option String → Option (Except String (List Block × Nat))
  | 0, _ => none
  | fuel + 1, cursor =>
    match api cursor with
    | Except.error m => some (Except.error m)
    | Except.ok r =>
      if cursorTruthy r.next_cursor then
        match listLoop api fuel r.next_cursor with
        | none => none
        | some (Except.error m) => some (Except.error m)
        | some (Except.ok (bs, n)) => some (Except.ok (r.results ++ bs, n + 1))
      else
        some (Except.ok (r.results, 1))

/-- The upstream Notion client as used by the server: retrieve a page's
metadata by id, and list a page of block children by parent id and cursor. -/
structure NotionClient where
  retrievePage : String → Except String Page
  listChildren : String → Option String → Except String ListResponse

/-- The bundle `getPageContent` returns on success:
`{page, properties, content, blocks}`. -/
structure PageData where
  page : Page
  properties : List (String × NormValue)
  content : String
  blocks : List Block
deriving DecidableEq, Repr

/-- The message of the `TypeError` thrown when a block arm dereferences an
absent payload or run list (the exact JavaScript engine wording is not
modelled, only that some message is produced). -/
def typeErrorMessage : String := "TypeError: cannot read properties of undefined"

/-- The body of `getPageContent`'s `try` block: retrieve the page, drain the
pagination loop, render / filter / join the blocks, and assemble the bundle.
`none` = the loop never terminated (out of fuel). -/
def getPageContentBody (client : NotionClient) (fuel : Nat) (pageId : String) :
    Option (Except String PageData) :=
  match client.retrievePage pageId with
  | Except.error m => some (Except.error m)
  | Except.ok page =>
    match listLoop (client.listChildren pageId) fuel none with
    | none => none
    | some (Except.error m) => some (Except.error m)
    | some (Except.ok (blocks, _)) =>
      match contentOfBlocks blocks with
      | none => some (Except.error typeErrorMessage)
      | some content =>
        some (Except.ok
          { page := page
            properties := extractAllProperties page
            content := content
            blocks := blocks })

/-- `getPageContent` with its `catch`: any error of the body is re-thrown as
`"Failed to get page content: " ++ message`. -/
def getPageContent (client : NotionClient) (fuel : Nat) (pageId : String) :
    Option (Except String PageData) :=
  match getPageContentBody client fuel pageId with
  | some (Except.error m) => some (Except.error ("Failed to get page content: " ++ m))
  | other => other

/-- The JSON payload of the `get_notion_page` tool:
`{page_id, url, properties, content, total_blocks}`. -/
structure GetPagePayload where
  page_id : String
  url : Option String
  properties : List (String × NormValue)
  content : String
  total_blocks : Nat
deriving DecidableEq, Repr

/-- The `get_notion_page` tool handler: build the payload from
`getPageContent`, re-throwing any error as
`"Failed to get page: " ++ message`. -/
def getNotionPage (client : NotionClient) (fuel : Nat) (page_id : String) :
    Option (Except String GetPagePayload) :=
  match getPageContent client fuel page_id with
  | none => none
  | some (Except.error m) => some (Except.error ("Failed to get page: " ++ m))
  | some (Except.ok d) =>
    some (Except.ok
      { page_id := page_id
        url := d.page.url
        properties := d.properties
        content := d.content
        total_blocks := d.blocks.length })

/-- The filter object of the upstream search call:
`{property: 'object', value: 'page'}`. -/
structure SearchFilter where
  property : String
  value : String
deriving DecidableEq, Repr

/-- The request the `search_notion` handler sends upstream: the query
together with the page-only filter. -/
structure SearchRequest where
  query : String
  filter : SearchFilter
deriving DecidableEq, Repr

/-- One upstream search response: `{results}` (only the first page;
no cursor is consumed by the handler). -/
structure SearchResponse where
  results : List Page := []
deriving DecidableEq, Repr

/-- One entry of the tool's `results` list:
`{id, url, created_time, last_edited_time, properties}`. -/
structure SearchResultEntry where
  id : Option String
  url : Option String
  created_time : Option String
  last_edited_time : Option String
  properties : List (String × NormValue)
deriving DecidableEq, Repr

/-- The JSON payload of the `search_notion` tool:
`{query, total_results, results}`. -/
structure SearchPayload where
  query : String
  total_results : Nat
  results : List SearchResultEntry
deriving DecidableEq, Repr

/-- The per-result arrow function of the `search_notion` handler. -/
def mkSearchResult (page : Page) : SearchResultEntry :=
  { id := page.id
    url := page.url
    created_time := page.created_time
    last_edited_time := page.last_edited_time
    properties := extractAllProperties page }

/-- The request `search_notion` builds for a query. -/
def searchRequestFor (query : String) : SearchRequest :=
  { query := query, filter := { property := "object", value := "page" } }

/-- The `search_notion` tool handler.  It issues the single upstream call
`notion.search({query, filter})`; the second component records the sequence
of upstream requests issued.  Errors are re-thrown as
`"Failed to search Notion: " ++ message`. -/
def searchNotion (api : SearchRequest → Except String SearchResponse)
    (query : String) : Except String SearchPayload × List SearchRequest :=
  match api (searchRequestFor query) with
  | Except.error m =>
    (Except.error ("Failed to search Notion: " ++ m), [searchRequestFor query])
  | Except.ok resp =>
    (Except.ok
      { query := query
        total_results := (resp.results.map mkSearchResult).length
        results := resp.results.map mkSearchResult },
     [searchRequestFor query])

/-! ## Sample data used by concrete instantiations -/

/-- Three blocks: a divider, a paragraph with an empty run list, and a
heading — the filtering scenario of the spec. -/
def sampleFilterBlocks : List Block :=
  [{ type := "divider" },
   { type := "paragraph", payload := some { rich_text := some [] } },
   { type := "heading_1", payload := some { rich_text := some [{ plain_text := "T" }] } }]

/-- A page with one checkbox property. -/
def samplePage : Page :=
  { url := some "https://notion.so/p1"
    properties := some [("Done", { type := "checkbox", checkbox := JAtom.bool true })] }

/-- A client whose page retrieval succeeds and whose single block-listing
response carries `sampleFilterBlocks` with no further cursor. -/
def sampleClient : NotionClient :=
  { retrievePage := fun _ => Except.ok samplePage
    listChildren := fun _ cursor =>
      match cursor with
      | none => Except.ok { results := sampleFilterBlocks }
      | some _ => Except.error "unexpected cursor" }

/-- The payload `get_notion_page` produces for `sampleClient`. -/
def samplePagePayload : GetPagePayload :=
  { page_id := "p1"
    url := some "https://notion.so/p1"
    properties := [("Done", NormValue.atom (JAtom.bool true))]
    content := "---\n\n# T"
    total_blocks := 3 }

/-- First synthetic block-listing response: three blocks, cursor `"abc"`. -/
def sampleResponseA : ListResponse :=
  { results := [{ type := "paragraph", payload := some { rich_text := some [{ plain_text := "a" }] } },
                { type := "divider" },
                { type := "callout" }]
    next_cursor := some "abc" }

/-- Second synthetic block-listing response: two blocks, no cursor. -/
def sampleResponseB : ListResponse :=
  { results := [{ type := "heading_1", payload := some { rich_text := some [{ plain_text := "h" }] } },
                { type := "quote", payload := some { rich_text := some [{ plain_text := "q" }] } }] }

/-- A listing API serving `sampleResponseA` at the initial (absent) cursor
and `sampleResponseB` at cursor `"abc"`. -/
def sampleListApi : Option String → Except String ListResponse
  | none => Except.ok sampleResponseA
  | some c => if c = "abc" then Except.ok sampleResponseB else Except.error "unexpected cursor"

/-- A search API that succeeds exactly on page-filtered requests. -/
def sampleSearchApi : SearchRequest → Except String SearchResponse :=
  fun req =>
    if req.filter.property = "object" ∧ req.filter.value = "page" then
      Except.ok { results := [samplePage] }
    else
      Except.error "bad filter"

/-- A client whose page retrieval always fails. -/
def failingClient : NotionClient :=
  { retrievePage := fun _ => Except.error "notFound"
    listChildren := fun _ _ => Except.error "offline" }

/-- A client whose page retrieval succeeds but whose block listing fails. -/
def failingListClient : NotionClient :=
  { retrievePage := fun _ => Except.ok samplePage
    listChildren := fun _ _ => Except.error "offline" }

/-! ## C1 — the renderer's formatting table -/

/-- C1: for every block whose kind is in the closed set and that carries its
documented payload, `render` returns exactly the table's string — the joined
run text with the fixed prefix (none, `"# "`, `"## "`, `"### "`, `"• "`, the
literal `"1. "`, `"✓ "` / `"○ "` by the checked boolean, `"▸ "`, `"> "`), the
fenced code form, or `"---"` for a divider — and for every block of a kind
outside the set it returns `"[<kind>]"`. -/
theorem render_formatting_table :
    (∀ runs : List TextRun,
      render { type := "paragraph", payload := some { rich_text := some runs } } =
        some (joinedText runs)) ∧
    (∀ runs : List TextRun,
      render { type := "heading_1", payload := some { rich_text := some runs } } =
        some ("# " ++ joinedText runs)) ∧
    (∀ runs : List TextRun,
      render { type := "heading_2", payload := some { rich_text := some runs } } =
        some ("## " ++ joinedText runs)) ∧
    (∀ runs : List TextRun,
      render { type := "heading_3", payload := some { rich_text := some runs } } =
        some ("### " ++ joinedText runs)) ∧
    (∀ runs : List TextRun,
      render { type := "bulleted_list_item", payload := some { rich_text := some runs } } =
        some ("• " ++ joinedText runs)) ∧
    (∀ runs : List TextRun,
      render { type := "numbered_list_item", payload := some { rich_text := some runs } } =
        some ("1. " ++ joinedText runs)) ∧
    (∀ runs : List TextRun,
      render { type := "to_do", payload := some { rich_text := some runs, checked := some true } } =
        some ("✓ " ++ joinedText runs)) ∧
    (∀ runs : List TextRun,
      render { type := "to_do", payload := some { rich_text := some runs, checked := some false } } =
        some ("○ " ++ joinedText runs)) ∧
    (∀ runs : List TextRun,
      render { type := "toggle", payload := some { rich_text := some runs } } =
        some ("▸ " ++ joinedText runs)) ∧
    (∀ (runs : List TextRun) (lang : String),
      render { type := "code", payload := some { rich_text := some runs, language := some lang } } =
        some ("```" ++ lang ++ "\n" ++ joinedText runs ++ "\n```")) ∧
    (∀ runs : List TextRun,
      render { type := "quote", payload := some { rich_text := some runs } } =
        some ("> " ++ joinedText runs)) ∧
    (∀ p : Option BlockPayload, render { type := "divider", payload := p } = some "---") ∧
    (∀ b : Block, b.type ∉ blockKinds → render b = some ("[" ++ b.type ++ "]")) := by
  refine ⟨fun runs => rfl, fun runs => rfl, fun runs => rfl, fun runs => rfl, fun runs => rfl,
    fun runs => rfl, fun runs => rfl, fun runs => rfl, fun runs => rfl, fun runs lang => rfl,
    fun runs => rfl, fun p => rfl, ?_⟩
  intro b hb
  obtain ⟨t, p⟩ := b
  simp only [blockKinds, List.mem_cons, List.not_mem_nil, or_false, not_or] at hb
  obtain ⟨h1, h2, h3, h4, h5, h6, h7, h8, h9, h10, h11⟩ := hb
  simp [render, h1, h2, h3, h4, h5, h6, h7, h8, h9, h10, h11]

/-- C1 witness: the unmapped kind `callout` renders to its placeholder. -/
theorem render_formatting_table_witness :
    render { type := "callout", payload := none } = some "[callout]" :=
  render_formatting_table.2.2.2.2.2.2.2.2.2.2.2.2
    { type := "callout", payload := none } (by decide)

/-! ## C2 — totality of the renderer -/

/-- C2 counterexample: a paragraph block whose kind-specific payload object
is absent makes `render` throw (`block.paragraph.rich_text` dereferences
`undefined`), so `render` does not return a string for every block. -/
theorem render_throws_on_absent_payload :
    render { type := "paragraph", payload := none } = none := rfl

/-- C2 (amended): `render` returns a string for every block whose kind does
not dereference the run list (divider and unmapped kinds) and for every
textual-kind block carrying its payload object and run list; for a
textual-kind block lacking its payload object or its run list, `render`
throws instead of degrading. -/
theorem render_total_on_wellformed :
    (∀ b : Block, b.type ∉ textualBlockKinds → (render b).isSome = true) ∧
    (∀ (t : String) (rt : List TextRun) (ch : Option Bool) (lang : Option String),
      t ∈ textualBlockKinds →
      (render { type := t, payload := some { rich_text := some rt, checked := ch, language := lang } }).isSome = true) ∧
    (∀ t : String, t ∈ textualBlockKinds → render { type := t, payload := none } = none) ∧
    (∀ (t : String) (ch : Option Bool) (lang : Option String),
      t ∈ textualBlockKinds →
      render { type := t, payload := some { rich_text := none, checked := ch, language := lang } } = none) := by
  refine ⟨?_, ?_, ?_, ?_⟩
  · intro b hb
    obtain ⟨t, p⟩ := b
    simp only [textualBlockKinds, List.mem_cons, List.not_mem_nil, or_false, not_or] at hb
    obtain ⟨h1, h2, h3, h4, h5, h6, h7, h8, h9, h10⟩ := hb
    simp only [render, h1, h2, h3, h4, h5, h6, h7, h8, h9, h10, if_false]
    by_cases hd : t = "divider" <;> simp [hd]
  · intro t rt ch lang ht
    simp only [textualBlockKinds, List.mem_cons, List.not_mem_nil, or_false] at ht
    rcases ht with rfl | rfl | rfl | rfl | rfl | rfl | rfl | rfl | rfl | rfl <;> rfl
  · intro t ht
    simp only [textualBlockKinds, List.mem_cons, List.not_mem_nil, or_false] at ht
    rcases ht with rfl | rfl | rfl | rfl | rfl | rfl | rfl | rfl | rfl | rfl <;> rfl
  · intro t ch lang ht
    simp only [textualBlockKinds, List.mem_cons, List.not_mem_nil, or_false] at ht
    rcases ht with rfl | rfl | rfl | rfl | rfl | rfl | rfl | rfl | rfl | rfl <;> rfl

/-- C2 witness: a divider block renders without consulting any payload. -/
theorem render_total_on_wellformed_witness :
    (render { type := "divider", payload := none }).isSome = true :=
  render_total_on_wellformed.1 { type := "divider", payload := none } (by decide)

/-! ## C3 — normalizer shapes and safe defaults -/

/-- C3 counterexample: a `number` property whose `number` sub-field is
absent normalizes to the pass-through `undefined`, which is none of the
claimed safe defaults (empty string, `null`, empty list). -/
theorem normalize_absent_number_not_safe_default :
    normalizeValue { type := "number" } = NormValue.atom JAtom.undef ∧
    NormValue.atom JAtom.undef ≠ NormValue.atom (JAtom.str "") ∧
    NormValue.atom JAtom.undef ≠ NormValue.atom JAtom.null ∧
    NormValue.atom JAtom.undef ≠ NormValue.list [] := by
  refine ⟨rfl, ?_, ?_, ?_⟩ <;> decide

/-- C3 (amended): well-formed values normalize to the documented shapes, and
`normalize` never fails; when the kind-specific sub-field is absent, the
kinds title/rich_text, select, multi_select, date, people and relation
degrade to the empty string, `null`, or the empty list, while the kinds
number, checkbox, url, email and phone_number pass the absent sub-field
through, producing `undefined` rather than one of those defaults. -/
theorem normalize_shapes :
    (∀ runs : List TextRun,
      normalizeValue { type := "title", title := some runs } =
        NormValue.atom (JAtom.str (joinedText runs))) ∧
    (normalizeValue { type := "title" } = NormValue.atom (JAtom.str "")) ∧
    (∀ runs : List TextRun,
      normalizeValue { type := "rich_text", rich_text := some runs } =
        NormValue.atom (JAtom.str (joinedText runs))) ∧
    (normalizeValue { type := "rich_text" } = NormValue.atom (JAtom.str "")) ∧
    (∀ a : JAtom, normalizeValue { type := "number", number := a } = NormValue.atom a) ∧
    (normalizeValue { type := "number" } = NormValue.atom JAtom.undef) ∧
    (∀ n : String, n ≠ "" →
      normalizeValue { type := "select", select := some { name := some n } } =
        NormValue.atom (JAtom.str n)) ∧
    (normalizeValue { type := "select" } = NormValue.atom JAtom.null) ∧
    (∀ names : List String,
      normalizeValue { type := "multi_select",
                       multi_select := some (names.map (fun n => { name := some n })) } =
        NormValue.list (names.map JAtom.str)) ∧
    (normalizeValue { type := "multi_select" } = NormValue.list []) ∧
    (∀ s : String, s ≠ "" →
      normalizeValue { type := "date", date := some { start := some s } } =
        NormValue.atom (JAtom.str s)) ∧
    (normalizeValue { type := "date" } = NormValue.atom JAtom.null) ∧
    (∀ b : Bool, normalizeValue { type := "checkbox", checkbox := JAtom.bool b } =
      NormValue.atom (JAtom.bool b)) ∧
    (normalizeValue { type := "checkbox" } = NormValue.atom JAtom.undef) ∧
    (∀ s : String, normalizeValue { type := "url", url := JAtom.str s } =
      NormValue.atom (JAtom.str s)) ∧
    (normalizeValue { type := "url" } = NormValue.atom JAtom.undef) ∧
    (∀ s : String, normalizeValue { type := "email", email := JAtom.str s } =
      NormValue.atom (JAtom.str s)) ∧
    (normalizeValue { type := "email" } = NormValue.atom JAtom.undef) ∧
    (∀ s : String, normalizeValue { type := "phone_number", phone_number := JAtom.str s } =
      NormValue.atom (JAtom.str s)) ∧
    (normalizeValue { type := "phone_number" } = NormValue.atom JAtom.undef) ∧
    (∀ ps : List Person,
      normalizeValue { type := "people", people := some ps } =
        NormValue.list (ps.map personAtom)) ∧
    (∀ n : String, n ≠ "" → ∀ i : Option String,
      personAtom { name := some n, id := i } = JAtom.str n) ∧
    (∀ i : String, personAtom { name := none, id := some i } = JAtom.str i) ∧
    (normalizeValue { type := "people" } = NormValue.list []) ∧
    (∀ ids : List String,
      normalizeValue { type := "relation",
                       relation := some (ids.map (fun i => { id := some i })) } =
        NormValue.list (ids.map JAtom.str)) ∧
    (normalizeValue { type := "relation" } = NormValue.list []) := by
  refine ⟨fun runs => rfl, rfl, fun runs => rfl, rfl, fun a => rfl, rfl, ?_, rfl, ?_, rfl,
    ?_, rfl, fun b => rfl, rfl, fun s => rfl, rfl, fun s => rfl, rfl, fun s => rfl, rfl,
    fun ps => rfl, ?_, fun i => rfl, rfl, ?_, rfl⟩
  · intro n hn
    simp [normalizeValue, selectValue, hn]
  · intro names
    simp [normalizeValue, multiSelectValue, optStr, List.map_map]
  · intro s hs
    simp [normalizeValue, dateValue, hs]
  · intro n hn i
    simp [personAtom, hn]
  · intro ids
    simp [normalizeValue, relationValue, optStr, List.map_map]

/-- C3 witness: a well-formed select option normalizes to its name. -/
theorem normalize_shapes_witness :
    normalizeValue { type := "select", select := some { name := some "Done" } } =
      NormValue.atom (JAtom.str "Done") :=
  normalize_shapes.2.2.2.2.2.2.1 "Done" (by decide)

/-! ## C4 — key preservation and raw pass-through -/

/-- C4: normalizing a property map preserves the key sequence exactly, and
every value whose kind tag is outside the enumerated set is passed through
as the raw `PropertyValue`, unchanged, under its key. -/
theorem normalize_keys_and_passthrough :
    (∀ props : List (String × PropertyValue),
      (normalizeProps props).map Prod.fst = props.map Prod.fst) ∧
    (∀ v : PropertyValue, v.type ∉ supportedPropertyTypes →
      normalizeValue v = NormValue.raw v) ∧
    (∀ (props : List (String × PropertyValue)) (k : String) (v : PropertyValue),
      (k, v) ∈ props → v.type ∉ supportedPropertyTypes →
      (k, NormValue.raw v) ∈ normalizeProps props) := by
  have hraw : ∀ v : PropertyValue, v.type ∉ supportedPropertyTypes →
      normalizeValue v = NormValue.raw v := by
    intro v hv
    simp only [supportedPropertyTypes, List.mem_cons, List.not_mem_nil, or_false, not_or] at hv
    obtain ⟨h1, h2, h3, h4, h5, h6, h7, h8, h9, h10, h11, h12⟩ := hv
    simp [normalizeValue, h1, h2, h3, h4, h5, h6, h7, h8, h9, h10, h11, h12]
  refine ⟨?_, hraw, ?_⟩
  · intro props
    induction props with
    | nil => rfl
    | cons kv rest ih => simp [normalizeProps]
  · intro props k v hmem hv
    exact List.mem_map.mpr ⟨(k, v), hmem, by rw [hraw v hv]⟩

/-- C4 witness: an unenumerated `status` property passes through raw. -/
theorem normalize_keys_and_passthrough_witness :
    ([("State", NormValue.raw { type := "status" })] : List (String × NormValue)) =
      normalizeProps [("State", { type := "status" })] ∧
    normalizeValue { type := "status" } = NormValue.raw { type := "status" } :=
  ⟨rfl, normalize_keys_and_passthrough.2.1 { type := "status" } (by decide)⟩

/-! ## C5 — render, then filter, then join -/

/-- C5: mapping `render` over a block sequence yields one line per block
(same length, before any filtering); the page content then drops exactly the
zero-length lines and joins the survivors with a blank line; in particular
the divider / empty-paragraph / heading sequence yields exactly the two
non-empty lines `"---"` and `"# T"` joined by `"\n\n"`. -/
theorem render_filter_join_pipeline :
    (∀ (blocks : List Block) (lines : List String),
      renderBlocks blocks = some lines → lines.length = blocks.length) ∧
    (∀ (blocks : List Block) (lines : List String),
      renderBlocks blocks = some lines →
      contentOfBlocks blocks = some (String.intercalate "\n\n" (filterNonEmpty lines))) ∧
    (renderBlocks sampleFilterBlocks = some ["---", "", "# T"] ∧
      filterNonEmpty ["---", "", "# T"] = ["---", "# T"] ∧
      contentOfBlocks sampleFilterBlocks = some "---\n\n# T") := by
  refine ⟨?_, ?_, rfl, rfl, rfl⟩
  · intro blocks
    induction blocks with
    | nil => intro lines h; simp [renderBlocks] at h; simp [← h]
    | cons b bs ih =>
      intro lines h
      simp only [renderBlocks] at h
      cases hb : render b with
      | none => rw [hb] at h; exact absurd h (by simp)
      | some s =>
        rw [hb] at h
        cases hbs : renderBlocks bs with
        | none => rw [hbs] at h; exact absurd h (by simp)
        | some rest =>
          rw [hbs] at h
          simp only [Option.some.injEq] at h
          subst h
          simp [ih rest hbs]
  · intro blocks lines h
    simp [contentOfBlocks, h]

/-- C5 witness: the three-block filtering scenario instantiates the
length-preservation conjunct. -/
theorem render_filter_join_pipeline_witness :
    (["---", "", "# T"] : List String).length = sampleFilterBlocks.length :=
  render_filter_join_pipeline.1 sampleFilterBlocks ["---", "", "# T"] rfl

/-! ## C6 — the pagination loop -/

/-- `apiChain api c rs`: starting from cursor `c`, the listing API answers
the calls of the pagination loop with the responses `rs` in order — each
response but the last carries a truthy next-cursor at which the API yields
the following response, and the last response's cursor is falsy. -/
def apiChain (api : Option String → Except String ListResponse) :
    Option String → List ListResponse → Prop
  | _, [] => False
  | c, r :: rest =>
    api c = Except.ok r ∧
    match rest with
    | [] => cursorTruthy r.next_cursor = false
    | _ :: _ => cursorTruthy r.next_cursor = true ∧ apiChain api r.next_cursor rest

/-- The pagination loop drains a response chain: starting anywhere in the
chain it terminates with the in-order concatenation of the remaining
responses' results and one call per response. -/
theorem listLoop_drains_chain (api : Option String → Except String ListResponse) :
    ∀ (rs : List ListResponse) (c : Option String) (fuel : Nat),
      apiChain api c rs → rs.length ≤ fuel →
      listLoop api fuel c =
        some (Except.ok ((rs.map ListResponse.results).flatten, rs.length)) := by
  intro rs
  induction rs with
  | nil => intro c fuel hchain _; exact absurd hchain (by simp [apiChain])
  | cons r rest ih =>
    intro c fuel hchain hfuel
    cases fuel with
    | zero => simp at hfuel
    | succ f =>
      simp only [apiChain] at hchain
      cases rest with
      | nil =>
        obtain ⟨hapi, hcursor⟩ := hchain
        simp [listLoop, hapi, hcursor]
      | cons r2 rest2 =>
        obtain ⟨hapi, hcursor, hrest⟩ := hchain
        have hlen : (r2 :: rest2).length ≤ f := Nat.succ_le_succ_iff.mp hfuel
        simp [listLoop, hapi, hcursor, ih r.next_cursor f hrest hlen]

/-- C6: for a finite chain of `N` listing responses whose last cursor is
falsy, the pagination loop terminates after exactly `N` sequential calls
(the first at the absent cursor, each next at the previous response's
cursor) and accumulates the in-order concatenation of the responses'
results, whose length is the sum of the per-response result counts. -/
theorem pagination_loop_exact (api : Option String → Except String ListResponse)
    (rs : List ListResponse) (fuel : Nat)
    (hchain : apiChain api none rs) (hfuel : rs.length ≤ fuel) :
    listLoop api fuel none =
      some (Except.ok ((rs.map ListResponse.results).flatten, rs.length)) ∧
    ((rs.map ListResponse.results).flatten).length =
      (rs.map (fun r => r.results.length)).sum := by
  refine ⟨listLoop_drains_chain api rs none fuel hchain hfuel, ?_⟩
  rw [List.length_flatten, List.map_map]
  rfl

/-- C6 witness: the two synthetic responses (3 then 2 blocks, cursors
`"abc"` then absent) drain in exactly 2 calls into a 5-block sequence. -/
theorem pagination_loop_exact_witness :
    listLoop sampleListApi 2 none =
      some (Except.ok (sampleResponseA.results ++ sampleResponseB.results, 2)) ∧
    (sampleResponseA.results ++ sampleResponseB.results).length = 5 :=
  pagination_loop_exact sampleListApi [sampleResponseA, sampleResponseB] 2
    ⟨rfl, rfl, rfl, rfl⟩ (by decide)

/-! ## C7 — `total_blocks` counts raw blocks -/

/-- C7: on every successful `get_notion_page` invocation, the payload's
`total_blocks` equals the length of the raw fetched block sequence — the
pre-filter count including dividers, unsupported kinds and blocks rendering
to the empty string. -/
theorem total_blocks_is_raw_count (client : NotionClient) (fuel : Nat) (pid : String)
    (blocks : List Block) (n : Nat) (payload : GetPagePayload)
    (hlist : listLoop (client.listChildren pid) fuel none = some (Except.ok (blocks, n)))
    (hok : getNotionPage client fuel pid = some (Except.ok payload)) :
    payload.total_blocks = blocks.length := by
  unfold getNotionPage getPageContent getPageContentBody at hok
  cases hr : client.retrievePage pid with
  | error m => rw [hr] at hok; simp at hok
  | ok page =>
    rw [hr, hlist] at hok
    dsimp only at hok
    cases hc : contentOfBlocks blocks with
    | none => rw [hc] at hok; simp at hok
    | some content =>
      rw [hc] at hok
      simp only [Option.some.injEq, Except.ok.injEq] at hok
      rw [← hok]

/-- C7 witness: the sample page has 3 raw blocks (one renders empty, one is
a divider), and the payload reports `total_blocks = 3`. -/
theorem total_blocks_is_raw_count_witness :
    samplePagePayload.total_blocks = sampleFilterBlocks.length :=
  total_blocks_is_raw_count sampleClient 1 "p1" sampleFilterBlocks 1 samplePagePayload
    rfl rfl

/-! ## C8 — the search tool contract -/

/-- C8: `search_notion` issues exactly one upstream call, carrying the
server-side filter restricting results to object kind `page`; on success its
payload echoes the query, lists per upstream result exactly
`{id, url, created_time, last_edited_time, properties}` with properties from
the normalizer, and reports `total_results` equal to the length of the
results list. -/
theorem search_tool_contract (api : SearchRequest → Except String SearchResponse)
    (query : String) :
    ((searchNotion api query).2 =
      [{ query := query, filter := { property := "object", value := "page" } }]) ∧
    (∀ resp : SearchResponse, api (searchRequestFor query) = Except.ok resp →
      (searchNotion api query).1 = Except.ok
        { query := query
          total_results := (resp.results.map mkSearchResult).length
          results := resp.results.map mkSearchResult }) ∧
    (∀ payload : SearchPayload, (searchNotion api query).1 = Except.ok payload →
      payload.total_results = payload.results.length) ∧
    (∀ page : Page, mkSearchResult page =
      { id := page.id, url := page.url, created_time := page.created_time,
        last_edited_time := page.last_edited_time,
        properties := extractAllProperties page }) := by
  refine ⟨?_, ?_, ?_, fun page => rfl⟩
  · unfold searchNotion
    cases api (searchRequestFor query) <;> rfl
  · intro resp h
    simp [searchNotion, h]
  · intro payload h
    unfold searchNotion at h
    cases ha : api (searchRequestFor query) with
    | error m => rw [ha] at h; simp at h
    | ok resp =>
      rw [ha] at h
      simp only [Except.ok.injEq] at h
      rw [← h]

/-- C8 witness: searching `"notes"` against the sample API returns the one
sample page with its normalized checkbox property. -/
theorem search_tool_contract_witness :
    (searchNotion sampleSearchApi "notes").1 = Except.ok
      { query := "notes"
        total_results := (([samplePage] : List Page).map mkSearchResult).length
        results := ([samplePage] : List Page).map mkSearchResult } :=
  (search_tool_contract sampleSearchApi "notes").2.1 { results := [samplePage] } (by rfl)

/-! ## C9 — the retrieval error wrap -/

/-- C9: when the page-metadata retrieval or a block-listing call inside
`getPageContent` fails with message `m`, `getPageContent` fails with exactly
`"Failed to get page content: " ++ m` and returns no partial result. -/
theorem retrieval_error_wrapped (client : NotionClient) (fuel : Nat) (pid : String) :
    (∀ m : String, client.retrievePage pid = Except.error m →
      getPageContent client fuel pid =
        some (Except.error ("Failed to get page content: " ++ m))) ∧
    (∀ (page : Page) (m : String), client.retrievePage pid = Except.ok page →
      listLoop (client.listChildren pid) fuel none = some (Except.error m) →
      getPageContent client fuel pid =
        some (Except.error ("Failed to get page content: " ++ m))) := by
  constructor
  · intro m h
    simp [getPageContent, getPageContentBody, h]
  · intro page m hr hl
    simp [getPageContent, getPageContentBody, hr, hl]

/-- C9 witness: a failing page retrieval surfaces with the single fixed
prefix. -/
theorem retrieval_error_wrapped_witness :
    getPageContent failingClient 1 "p1" =
      some (Except.error "Failed to get page content: notFound") :=
  (retrieval_error_wrapped failingClient 1 "p1").1 "notFound" rfl

/-! ## C10 — the tool boundary stacks a second prefix -/

/-- C10: when `getPageContent` fails, the `get_notion_page` handler wraps
the already-wrapped error again, so an underlying cause `m` surfaces at the
tool boundary as exactly
`"Failed to get page: Failed to get page content: " ++ m`. -/
theorem tool_error_double_wrapped (client : NotionClient) (fuel : Nat) (pid : String) :
    (∀ m : String, client.retrievePage pid = Except.error m →
      getNotionPage client fuel pid =
        some (Except.error ("Failed to get page: Failed to get page content: " ++ m))) ∧
    (∀ (page : Page) (m : String), client.retrievePage pid = Except.ok page →
      listLoop (client.listChildren pid) fuel none = some (Except.error m) →
      getNotionPage client fuel pid =
        some (Except.error ("Failed to get page: Failed to get page content: " ++ m))) := by
  constructor
  · intro m h
    simp only [getNotionPage, getPageContent, getPageContentBody, h]
    rw [← String.append_assoc]
    rfl
  · intro page m hr hl
    simp only [getNotionPage, getPageContent, getPageContentBody, hr, hl]
    rw [← String.append_assoc]
    rfl

/-- C10 witness: a failing block listing surfaces at the tool boundary with
the two stacked prefixes. -/
theorem tool_error_double_wrapped_witness :
    getNotionPage failingListClient 1 "p1" =
      some (Except.error "Failed to get page: Failed to get page content: offline") :=
  (tool_error_double_wrapped failingListClient 1 "p1").2 samplePage "offline" rfl rfl

end NotionMCP
